import Mathlib

/-
Shallow embedding of the file-backed DNSSEC key session
(src/tools/file_session.go) and of the collaborators it uses.

Modelling conventions:
- Private keys are symbolic: an RSA key records its modulus bit length and a
  distinct identity drawn from the randomness source; an ECDSA key records its
  curve and such an identity.  The PKCS#8 / PEM codec is modelled at the level
  of these symbolic values, since the codec is the Go standard library, not
  code of this repository.
- A seekable byte stream is a record of its content, its cursor position
  (0 = at start, anything else = not at start), and two fault flags saying
  whether Write and Seek calls on it fail.  A failed Write leaves content and
  position unchanged (the no-bytes-written failure mode, e.g. a read-only
  file); a failed Seek leaves the position unchanged.  Write replaces the
  content wholly and leaves the cursor away from the start; a read from a
  position other than the start sees no usable data.
- Randomness plus generation failure is a list of outcomes consumed one per
  key generation call: some i yields a fresh key with identity i, none is a
  generation failure (entropy failure).  MarshalPKCS8PrivateKey never fails on
  the RSA and P-256 keys this code produces, so its error branch is vacuous
  here, as in the Go standard library for these key types.
- Go methods that mutate the session are functions from a session state
  (session + randomness source + log) to a result paired with the new state.
-/

namespace DnsTools

/-- The signing algorithm selector held in the Context.  The two values the
code recognises, plus a constructor standing for every other value of the
underlying enumeration (the switch default cases in the source). -/
inductive SignAlgorithm where
  | RsaSha256
  | EcdsaP256Sha256
  | unknown (code : Nat)
deriving DecidableEq

/-- Elliptic curves in play.  The source only ever asks for P-256
(elliptic.P256() in generateECDSAKey). -/
inductive Curve where
  | P256
deriving DecidableEq

/-- Symbolic private key material: an RSA key with its modulus bit length, or
an elliptic-curve key with its curve; `i` is the identity drawn from the
randomness source at generation time (two generations never share it). -/
inductive PrivKey where
  | rsa (bits : Nat) (i : Nat)
  | ec (curve : Curve) (i : Nat)
deriving DecidableEq

/-- The body of a PEM block: either a valid PKCS#8 encoding of a private key,
or bytes that do not parse as PKCS#8. -/
inductive PKCS8Body where
  | valid (k : PrivKey)
  | invalid
deriving DecidableEq

/-- The content of a key stream, at the abstraction level of the PEM codec:
empty, a single PEM block (label, headers, body), or bytes in which no PEM
block is found. -/
inductive StreamContent where
  | empty
  | pem (label : String) (headers : List (String × String)) (body : PKCS8Body)
  | malformed
deriving DecidableEq

/-- The error values the embedded code can return.
undefinedSignAlgorithm is the "undefined sign algorithm" error of the two
switch defaults; generationFailure an error from the key generator;
decodeFailure a PEM/PKCS#8 decode error; keyTypeMismatch the error of a
public-key encoder applied to a key of the other family. -/
inductive Err where
  | undefinedSignAlgorithm
  | generationFailure
  | decodeFailure
  | keyTypeMismatch
deriving DecidableEq

/-- A seekable read/write byte stream (io.ReadWriteSeeker): content, cursor
position (0 = at start), and fault flags for Write and Seek. -/
structure Stream where
  content : StreamContent
  pos : Nat
  failWrite : Bool
  failSeek : Bool
deriving DecidableEq

/-- Write at the cursor.  On success the stream content is replaced and the
cursor ends away from the start; on failure nothing changes.  The Bool is Go
error result: false = the call failed. -/
def Stream.write (s : Stream) (c : StreamContent) : Stream × Bool :=
  match s.failWrite with
  | true => (s, false)
  | false => ({ s with content := c, pos := 1 }, true)

/-- Seek(0, io.SeekStart).  On success the cursor returns to the start; on
failure nothing changes.  The Bool is the Go error result: false = failed. -/
def Stream.seekStart (s : Stream) : Stream × Bool :=
  match s.failSeek with
  | true => (s, false)
  | false => ({ s with pos := 0 }, true)

/-- Read the whole stream from the cursor.  At the start this yields the full
content; anywhere else it yields nothing usable (the cursor is at or past the
end after a write).  Afterwards the cursor is away from the start. -/
def Stream.readAll (s : Stream) : StreamContent × Stream :=
  match s.pos with
  | 0 => (s.content, { s with pos := 1 })
  | _ + 1 => (StreamContent.empty, { s with pos := 1 })

/-- The outcomes the randomness source will hand to successive key
generation calls: some i = a fresh key with identity i, none = failure. -/
abbrev RandSrc := List (Option Nat)

/-- One call into the key generator (rsa.GenerateKey / ecdsa.GenerateKey):
consume the next outcome of the randomness source. -/
def genKeyStep (r : RandSrc) : Except Err Nat × RandSrc :=
  match r with
  | [] => (Except.error Err.generationFailure, [])
  | Option.none :: rest => (Except.error Err.generationFailure, rest)
  | Option.some i :: rest => (Except.ok i, rest)

/-- x509.MarshalPKCS8PrivateKey.  It never fails on the RSA and ECDSA P-256
keys this code generates, so at this abstraction it always succeeds. -/
def MarshalPKCS8PrivateKey (k : PrivKey) : Except Err PKCS8Body :=
  Except.ok (PKCS8Body.valid k)

/-- pem.Block: type label, headers, body bytes. -/
structure Block where
  typeLabel : String
  headers : List (String × String)
  bytes : PKCS8Body
deriving DecidableEq

/-- pem.EncodeToMemory: the serialised block, at this abstraction the block
itself as stream content. -/
def EncodeToMemory (b : Block) : StreamContent :=
  StreamContent.pem b.typeLabel b.headers b.bytes

/-- generateRSAKey (file_session.go lines 126-139): generate an RSA key of
the given size, marshal it as PKCS#8, wrap it in a PEM block with type
"PRIVATE KEY" and no headers (the Go literal sets only Type and Bytes). -/
def generateRSAKey (bits : Nat) (r : RandSrc) : Except Err StreamContent × RandSrc :=
  match genKeyStep r with
  | (Except.error e, r1) => (Except.error e, r1)
  | (Except.ok i, r1) =>
    match MarshalPKCS8PrivateKey (PrivKey.rsa bits i) with
    | Except.error e => (Except.error e, r1)
    | Except.ok pkcs8Bytes =>
      (Except.ok (EncodeToMemory { typeLabel := "PRIVATE KEY", headers := [], bytes := pkcs8Bytes }), r1)

/-- generateECDSAKey (file_session.go lines 142-155): generate a P-256 key,
marshal it as PKCS#8, wrap it in a PEM block with type "PRIVATE KEY" and no
headers. -/
def generateECDSAKey (r : RandSrc) : Except Err StreamContent × RandSrc :=
  match genKeyStep r with
  | (Except.error e, r1) => (Except.error e, r1)
  | (Except.ok i, r1) =>
    match MarshalPKCS8PrivateKey (PrivKey.ec Curve.P256 i) with
    | Except.error e => (Except.error e, r1)
    | Except.ok pkcs8Bytes =>
      (Except.ok (EncodeToMemory { typeLabel := "PRIVATE KEY", headers := [], bytes := pkcs8Bytes }), r1)

/-- Modelled from the spec: the configuration record inside the Context
(defined outside the provided source file); the source reads
ctx.Config.CreateKeys, the create/overwrite flag. -/
structure ContextConfig where
  CreateKeys : Bool
deriving DecidableEq

/-- Modelled from the spec: the Context (defined outside the provided source
file), the read-only configuration holder; the source reads
ctx.Config.CreateKeys and ctx.SignAlgorithm, and writes to ctx.Log. -/
structure Context where
  Config : ContextConfig
  SignAlgorithm : SignAlgorithm
deriving DecidableEq

/-- FileSession (file_session.go lines 17-21): the context and the two key
streams. -/
structure FileSession where
  ctx : Context
  zskFile : Stream
  kskFile : Stream
deriving DecidableEq

/-- The mutable world a FileSession method call touches: the session (whose
streams it may move or rewrite), the randomness source, and the log sink. -/
structure SessionState where
  session : FileSession
  rand : RandSrc
  log : List String
deriving DecidableEq

/-- Modelled from the spec: fileRRSigner (defined outside the provided source
file), the signing capability wrapping one decoded private key.  The back
reference to the session carries no data relevant here and is omitted. -/
structure fileRRSigner where
  Key : PrivKey
deriving DecidableEq

/-- Modelled from the spec: SigKeys (defined outside the provided source
file), the pair of signing capabilities returned by GetKeys. -/
structure SigKeys where
  zskSigner : fileRRSigner
  kskSigner : fileRRSigner
deriving DecidableEq

/-- Decode of one stream content as a private key: a PEM block whose body is
valid PKCS#8 yields the key; anything else (empty, malformed, a block with a
non-PKCS#8 body) is a decode failure. -/
def decodePriv (c : StreamContent) : Except Err PrivKey :=
  match c with
  | StreamContent.pem _ _ (PKCS8Body.valid k) => Except.ok k
  | _ => Except.error Err.decodeFailure

/-- Modelled from the spec: readerToPrivateKey (defined outside the provided
source file) reads the whole stream from its cursor, decodes a PEM block and
then its PKCS#8 body, failing with a decode error if the stream is empty,
malformed, or not valid PKCS#8 (spec 4.2 step 2). -/
def readerToPrivateKey (s : Stream) : Except Err PrivKey × Stream :=
  match s.readAll with
  | (c, s1) => (decodePriv c, s1)

/-- The log line GetKeys emits before generating keys
(file_session.go line 31). -/
def createKeysMsg : String := "create-keys flag activated. Creating or overwriting keys"

/-- generateKeys (file_session.go lines 88-123): dispatch on the sign
algorithm; for RSA generate and write the 2048-bit KSK then the 1024-bit ZSK,
for ECDSA two P-256 keys in the same order; any other algorithm is the
"undefined sign algorithm" error before anything else.  The Go code discards
the error results of Write and Seek, so this embedding discards the Bool each
returns. -/
def FileSession.generateKeys (st : SessionState) : Except Err Unit × SessionState :=
  match st.session.ctx.SignAlgorithm with
  | SignAlgorithm.RsaSha256 =>
    match generateRSAKey 2048 st.rand with
    | (Except.error e, r1) => (Except.error e, { st with rand := r1 })
    | (Except.ok kskBytes, r1) =>
      let (k1, _) := st.session.kskFile.write kskBytes
      let (k2, _) := k1.seekStart
      let st1 : SessionState :=
        { st with session := { st.session with kskFile := k2 }, rand := r1 }
      match generateRSAKey 1024 st1.rand with
      | (Except.error e, r2) => (Except.error e, { st1 with rand := r2 })
      | (Except.ok zskBytes, r2) =>
        let (z1, _) := st1.session.zskFile.write zskBytes
        let (z2, _) := z1.seekStart
        (Except.ok (), { st1 with session := { st1.session with zskFile := z2 }, rand := r2 })
  | SignAlgorithm.EcdsaP256Sha256 =>
    match generateECDSAKey st.rand with
    | (Except.error e, r1) => (Except.error e, { st with rand := r1 })
    | (Except.ok kskBytes, r1) =>
      let (k1, _) := st.session.kskFile.write kskBytes
      let (k2, _) := k1.seekStart
      let st1 : SessionState :=
        { st with session := { st.session with kskFile := k2 }, rand := r1 }
      match generateECDSAKey st1.rand with
      | (Except.error e, r2) => (Except.error e, { st1 with rand := r2 })
      | (Except.ok zskBytes, r2) =>
        let (z1, _) := st1.session.zskFile.write zskBytes
        let (z2, _) := z1.seekStart
        (Except.ok (), { st1 with session := { st1.session with zskFile := z2 }, rand := r2 })
  | SignAlgorithm.unknown _ => (Except.error Err.undefinedSignAlgorithm, st)

/-- GetKeys (file_session.go lines 29-54): if CreateKeys, log and generate
(propagating any error); then read the ZSK key from its stream, then the KSK
key from its stream, each read short-circuiting on failure; on success wrap
both in signers and return them as SigKeys. -/
def FileSession.GetKeys (st : SessionState) : Except Err SigKeys × SessionState :=
  let genStep : Except Err Unit × SessionState :=
    match st.session.ctx.Config.CreateKeys with
    | true => FileSession.generateKeys { st with log := st.log ++ [createKeysMsg] }
    | false => (Except.ok (), st)
  match genStep with
  | (Except.error e, st1) => (Except.error e, st1)
  | (Except.ok (), st1) =>
    match readerToPrivateKey st1.session.zskFile with
    | (Except.error e, z1) =>
      (Except.error e, { st1 with session := { st1.session with zskFile := z1 } })
    | (Except.ok zsk, z1) =>
      let st2 : SessionState := { st1 with session := { st1.session with zskFile := z1 } }
      match readerToPrivateKey st2.session.kskFile with
      | (Except.error e, k1) =>
        (Except.error e, { st2 with session := { st2.session with kskFile := k1 } })
      | (Except.ok ksk, k1) =>
        (Except.ok { zskSigner := { Key := zsk }, kskSigner := { Key := ksk } },
         { st2 with session := { st2.session with kskFile := k1 } })

/-- The two public-key encodings, symbolically: DNSKEY-ready RSA public key
bytes carry the modulus size and key identity, ECDSA ones the curve and key
identity. -/
inductive PubBytes where
  | rsaPub (bits : Nat) (i : Nat)
  | ecPub (curve : Curve) (i : Nat)
deriving DecidableEq

/-- Modelled from the spec: getRSAPubKeyBytes (defined outside the provided
source file) encodes the public half of an RSA signer for DNSKEY use, and
fails when the key held by the signer is not an RSA key. -/
def getRSAPubKeyBytes (sg : fileRRSigner) : Except Err PubBytes :=
  match sg.Key with
  | PrivKey.rsa bits i => Except.ok (PubBytes.rsaPub bits i)
  | PrivKey.ec _ _ => Except.error Err.keyTypeMismatch

/-- Modelled from the spec: getECDSAPubKeyBytes (defined outside the provided
source file) encodes the public half of an ECDSA signer for DNSKEY use, and
fails when the key held by the signer is not an elliptic-curve key. -/
def getECDSAPubKeyBytes (sg : fileRRSigner) : Except Err PubBytes :=
  match sg.Key with
  | PrivKey.ec c i => Except.ok (PubBytes.ecPub c i)
  | PrivKey.rsa _ _ => Except.error Err.keyTypeMismatch

/-- GetPublicKeyBytes (file_session.go lines 57-75): select the encoder by
the sign algorithm, failing with "undefined sign algorithm" on any other
value before either encoder runs; then apply it to the KSK signer first and,
only if that succeeds, to the ZSK signer; the result pair is (zsk, ksk). -/
def FileSession.GetPublicKeyBytes (ctx : Context) (keys : SigKeys) :
    Except Err (PubBytes × PubBytes) :=
  let apply2 : (fileRRSigner → Except Err PubBytes) → Except Err (PubBytes × PubBytes) :=
    fun keyFun =>
      match keyFun keys.kskSigner with
      | Except.error e => Except.error e
      | Except.ok kskBytes =>
        match keyFun keys.zskSigner with
        | Except.error e => Except.error e
        | Except.ok zskBytes => Except.ok (zskBytes, kskBytes)
  match ctx.SignAlgorithm with
  | SignAlgorithm.RsaSha256 => apply2 getRSAPubKeyBytes
  | SignAlgorithm.EcdsaP256Sha256 => apply2 getECDSAPubKeyBytes
  | SignAlgorithm.unknown _ => Except.error Err.undefinedSignAlgorithm

/-- DestroyAllKeys (file_session.go lines 78-80): a no-op for the file
session, never fails, checks nothing. -/
def FileSession.DestroyAllKeys (_s : FileSession) : Except Err Unit :=
  Except.ok ()

/-- End (file_session.go lines 83-85): a no-op for the file session, never
fails, checks nothing. -/
def FileSession.End (_s : FileSession) : Except Err Unit :=
  Except.ok ()

/-- Convenience builder for a session state from its parts (log starts
empty). -/
def mkState (alg : SignAlgorithm) (ck : Bool) (z k : Stream) (r : RandSrc) : SessionState :=
  { session :=
      { ctx := { Config := { CreateKeys := ck }, SignAlgorithm := alg },
        zskFile := z, kskFile := k },
    rand := r, log := [] }

end DnsTools

namespace DnsTools

/-- Decoding a PEM block with a valid PKCS#8 body yields exactly the stored
key, whatever the label and headers. -/
theorem decodePriv_pem_valid (lb : String) (hd : List (String × String)) (k : PrivKey) :
    decodePriv (StreamContent.pem lb hd (PKCS8Body.valid k)) = Except.ok k := rfl

/-- Claim C1 (counterexample): the claim says every Session operation rejects
an unsupported algorithm before any stream I/O, in particular GetKeys when
createKeys is false.  At this concrete input (unknown algorithm, createKeys
false, both streams holding valid keys) GetKeys performs the stream reads and
succeeds, so the claim as stated is false. -/
theorem getKeys_no_algorithm_check_when_not_creating :
    (FileSession.GetKeys (mkState (SignAlgorithm.unknown 3) false
        { content := StreamContent.pem "PRIVATE KEY" [] (PKCS8Body.valid (PrivKey.rsa 1024 1)),
          pos := 0, failWrite := false, failSeek := false }
        { content := StreamContent.pem "PRIVATE KEY" [] (PKCS8Body.valid (PrivKey.rsa 2048 2)),
          pos := 0, failWrite := false, failSeek := false }
        [])).1
      = Except.ok { zskSigner := { Key := PrivKey.rsa 1024 1 },
                    kskSigner := { Key := PrivKey.rsa 2048 2 } } := rfl

/-- Claim C1 (amended): the operations that consult the algorithm reject an
unsupported value with the "undefined sign algorithm" error before any
generation or stream write: generateKeys fails leaving the whole state
untouched, GetPublicKeyBytes fails for every SigKeys, and GetKeys with
createKeys true fails with streams and randomness untouched (only the log
line is emitted).  GetKeys with createKeys false never consults the
algorithm, and DestroyAllKeys and End never fail. -/
theorem unsupported_algorithm_rejection_scope (n : Nat) :
    (∀ (ck : Bool) (z k : Stream) (r : RandSrc),
      FileSession.generateKeys (mkState (SignAlgorithm.unknown n) ck z k r)
        = (Except.error Err.undefinedSignAlgorithm, mkState (SignAlgorithm.unknown n) ck z k r)) ∧
    (∀ (ck : Bool) (keys : SigKeys),
      FileSession.GetPublicKeyBytes
          { Config := { CreateKeys := ck }, SignAlgorithm := SignAlgorithm.unknown n } keys
        = Except.error Err.undefinedSignAlgorithm) ∧
    (∀ (z k : Stream) (r : RandSrc),
      FileSession.GetKeys (mkState (SignAlgorithm.unknown n) true z k r)
        = (Except.error Err.undefinedSignAlgorithm,
           { session := (mkState (SignAlgorithm.unknown n) true z k r).session,
             rand := r, log := [createKeysMsg] })) ∧
    (∀ (s : FileSession),
      FileSession.DestroyAllKeys s = Except.ok () ∧ FileSession.End s = Except.ok ()) :=
  ⟨fun _ _ _ _ => rfl, fun _ _ => rfl, fun _ _ _ => rfl, fun _ => ⟨rfl, rfl⟩⟩

/-- Claim C2 (code bug): generateKeys discards the error results of Write and
Seek.  Even when every write and seek on both streams fails, generateKeys
returns success, with the streams unchanged and only the randomness consumed
-- so no write or seek failure is ever surfaced to the caller of GetKeys. -/
theorem generateKeys_ignores_write_and_seek_failures
    (ck : Bool) (zc kc : StreamContent) (zp kp i j : Nat) (r : RandSrc) :
    (FileSession.generateKeys (mkState SignAlgorithm.RsaSha256 ck
        { content := zc, pos := zp, failWrite := true, failSeek := true }
        { content := kc, pos := kp, failWrite := true, failSeek := true }
        (Option.some i :: Option.some j :: r))
      = (Except.ok (), mkState SignAlgorithm.RsaSha256 ck
          { content := zc, pos := zp, failWrite := true, failSeek := true }
          { content := kc, pos := kp, failWrite := true, failSeek := true } r)) ∧
    (FileSession.generateKeys (mkState SignAlgorithm.EcdsaP256Sha256 ck
        { content := zc, pos := zp, failWrite := true, failSeek := true }
        { content := kc, pos := kp, failWrite := true, failSeek := true }
        (Option.some i :: Option.some j :: r))
      = (Except.ok (), mkState SignAlgorithm.EcdsaP256Sha256 ck
          { content := zc, pos := zp, failWrite := true, failSeek := true }
          { content := kc, pos := kp, failWrite := true, failSeek := true } r)) :=
  ⟨rfl, rfl⟩

/-- Claim C3 (code bug): with createKeys true and streams whose writes fail,
GetKeys nevertheless succeeds, and the capabilities it returns are exactly
the keys the streams held before the call (any zk and kk), not the freshly
generated 2048/1024-bit material -- stream content is unchanged. -/
theorem getKeys_returns_stale_keys_when_writes_fail
    (zk kk : PrivKey) (i j : Nat) (r : RandSrc) :
    (FileSession.GetKeys (mkState SignAlgorithm.RsaSha256 true
        { content := StreamContent.pem "PRIVATE KEY" [] (PKCS8Body.valid zk),
          pos := 0, failWrite := true, failSeek := true }
        { content := StreamContent.pem "PRIVATE KEY" [] (PKCS8Body.valid kk),
          pos := 0, failWrite := true, failSeek := true }
        (Option.some i :: Option.some j :: r))).1
      = Except.ok { zskSigner := { Key := zk }, kskSigner := { Key := kk } } ∧
    (FileSession.GetKeys (mkState SignAlgorithm.RsaSha256 true
        { content := StreamContent.pem "PRIVATE KEY" [] (PKCS8Body.valid zk),
          pos := 0, failWrite := true, failSeek := true }
        { content := StreamContent.pem "PRIVATE KEY" [] (PKCS8Body.valid kk),
          pos := 0, failWrite := true, failSeek := true }
        (Option.some i :: Option.some j :: r))).2.session.zskFile.content
      = StreamContent.pem "PRIVATE KEY" [] (PKCS8Body.valid zk) ∧
    (FileSession.GetKeys (mkState SignAlgorithm.RsaSha256 true
        { content := StreamContent.pem "PRIVATE KEY" [] (PKCS8Body.valid zk),
          pos := 0, failWrite := true, failSeek := true }
        { content := StreamContent.pem "PRIVATE KEY" [] (PKCS8Body.valid kk),
          pos := 0, failWrite := true, failSeek := true }
        (Option.some i :: Option.some j :: r))).2.session.kskFile.content
      = StreamContent.pem "PRIVATE KEY" [] (PKCS8Body.valid kk) :=
  ⟨rfl, rfl, rfl⟩

/-- Claim C4: under RSA_SHA256, every successful generation writes a 2048-bit
RSA key for the KSK and a 1024-bit RSA key for the ZSK (so the KSK size is
strictly larger), each stream ending with the fresh PEM block and its cursor
back at the start. -/
theorem generateKeys_rsa_ksk_2048_zsk_1024
    (zc kc : StreamContent) (zp kp : Nat) (ck : Bool) (i j : Nat) (r : RandSrc) :
    FileSession.generateKeys (mkState SignAlgorithm.RsaSha256 ck
        { content := zc, pos := zp, failWrite := false, failSeek := false }
        { content := kc, pos := kp, failWrite := false, failSeek := false }
        (Option.some i :: Option.some j :: r))
      = (Except.ok (), mkState SignAlgorithm.RsaSha256 ck
          { content := StreamContent.pem "PRIVATE KEY" [] (PKCS8Body.valid (PrivKey.rsa 1024 j)),
            pos := 0, failWrite := false, failSeek := false }
          { content := StreamContent.pem "PRIVATE KEY" [] (PKCS8Body.valid (PrivKey.rsa 2048 i)),
            pos := 0, failWrite := false, failSeek := false } r) := rfl

/-- Claim C5: under ECDSA_P256_SHA256, every successful generation writes
P-256 elliptic-curve keys for both the KSK and the ZSK. -/
theorem generateKeys_ecdsa_both_p256
    (zc kc : StreamContent) (zp kp : Nat) (ck : Bool) (i j : Nat) (r : RandSrc) :
    FileSession.generateKeys (mkState SignAlgorithm.EcdsaP256Sha256 ck
        { content := zc, pos := zp, failWrite := false, failSeek := false }
        { content := kc, pos := kp, failWrite := false, failSeek := false }
        (Option.some i :: Option.some j :: r))
      = (Except.ok (), mkState SignAlgorithm.EcdsaP256Sha256 ck
          { content := StreamContent.pem "PRIVATE KEY" [] (PKCS8Body.valid (PrivKey.ec Curve.P256 j)),
            pos := 0, failWrite := false, failSeek := false }
          { content := StreamContent.pem "PRIVATE KEY" [] (PKCS8Body.valid (PrivKey.ec Curve.P256 i)),
            pos := 0, failWrite := false, failSeek := false } r) := rfl

/-- Claim C6: the KSK is generated and written before the ZSK.  If KSK
generation fails (next randomness outcome is a failure) the operation aborts
with both streams completely untouched, under either supported algorithm; if
KSK generation succeeds and ZSK generation then fails, the error is returned
with the KSK stream already overwritten by the fresh key and the ZSK stream
untouched. -/
theorem generateKeys_ksk_first_abort_semantics
    (z k : Stream) (kc : StreamContent) (kp : Nat) (ck : Bool) (i : Nat) (r : RandSrc) :
    (FileSession.generateKeys (mkState SignAlgorithm.RsaSha256 ck z k (Option.none :: r))
      = (Except.error Err.generationFailure, mkState SignAlgorithm.RsaSha256 ck z k r)) ∧
    (FileSession.generateKeys (mkState SignAlgorithm.EcdsaP256Sha256 ck z k (Option.none :: r))
      = (Except.error Err.generationFailure, mkState SignAlgorithm.EcdsaP256Sha256 ck z k r)) ∧
    (FileSession.generateKeys (mkState SignAlgorithm.RsaSha256 ck z
        { content := kc, pos := kp, failWrite := false, failSeek := false }
        (Option.some i :: Option.none :: r))
      = (Except.error Err.generationFailure, mkState SignAlgorithm.RsaSha256 ck z
          { content := StreamContent.pem "PRIVATE KEY" [] (PKCS8Body.valid (PrivKey.rsa 2048 i)),
            pos := 0, failWrite := false, failSeek := false } r)) ∧
    (FileSession.generateKeys (mkState SignAlgorithm.EcdsaP256Sha256 ck z
        { content := kc, pos := kp, failWrite := false, failSeek := false }
        (Option.some i :: Option.none :: r))
      = (Except.error Err.generationFailure, mkState SignAlgorithm.EcdsaP256Sha256 ck z
          { content := StreamContent.pem "PRIVATE KEY" [] (PKCS8Body.valid (PrivKey.ec Curve.P256 i)),
            pos := 0, failWrite := false, failSeek := false } r)) :=
  ⟨rfl, rfl, rfl, rfl⟩

/-- Claim C10: every key material block produced by generation, RSA or ECDSA
alike, is a PEM block whose type label is exactly "PRIVATE KEY" with no PEM
headers, independent of algorithm, key size and role. -/
theorem generated_pem_label_private_key (bits i : Nat) (r : RandSrc) :
    generateRSAKey bits (Option.some i :: r)
      = (Except.ok (StreamContent.pem "PRIVATE KEY" []
          (PKCS8Body.valid (PrivKey.rsa bits i))), r) ∧
    generateECDSAKey (Option.some i :: r)
      = (Except.ok (StreamContent.pem "PRIVATE KEY" []
          (PKCS8Body.valid (PrivKey.ec Curve.P256 i))), r) :=
  ⟨rfl, rfl⟩

/-- Claim C7: failures inside GetKeys short-circuit the remaining steps and
are returned with no SigKeys.  A generation failure is returned with neither
stream subsequently read (state exactly as generation left it); a ZSK decode
failure is returned with the KSK stream completely untouched (never read);
a KSK decode failure after a successful ZSK read is returned as the error. -/
theorem getKeys_failures_short_circuit :
    (∀ (z k : Stream) (r : RandSrc),
      FileSession.GetKeys (mkState SignAlgorithm.RsaSha256 true z k (Option.none :: r))
        = (Except.error Err.generationFailure,
           { session := (mkState SignAlgorithm.RsaSha256 true z k r).session,
             rand := r, log := [createKeysMsg] })) ∧
    (∀ (alg : SignAlgorithm) (e : Err) (zc : StreamContent) (zw zs : Bool)
        (k : Stream) (r : RandSrc),
      decodePriv zc = Except.error e →
      FileSession.GetKeys (mkState alg false
          { content := zc, pos := 0, failWrite := zw, failSeek := zs } k r)
        = (Except.error e, mkState alg false
            { content := zc, pos := 1, failWrite := zw, failSeek := zs } k r)) ∧
    (∀ (alg : SignAlgorithm) (e : Err) (zk : PrivKey) (lb : String)
        (hd : List (String × String)) (kc : StreamContent) (zw zs kw ks : Bool) (r : RandSrc),
      decodePriv kc = Except.error e →
      (FileSession.GetKeys (mkState alg false
          { content := StreamContent.pem lb hd (PKCS8Body.valid zk),
            pos := 0, failWrite := zw, failSeek := zs }
          { content := kc, pos := 0, failWrite := kw, failSeek := ks } r)).1
        = Except.error e) := by
  refine ⟨fun z k r => rfl, fun alg e zc zw zs k r h => ?_, fun alg e zk lb hd kc zw zs kw ks r h => ?_⟩
  · simp [FileSession.GetKeys, readerToPrivateKey, Stream.readAll, mkState, h]
  · simp [FileSession.GetKeys, readerToPrivateKey, Stream.readAll, decodePriv_pem_valid, mkState, h]

/-- Claim C7 witness: the short-circuit theorem applied at concrete inputs -
a failed generation, a malformed ZSK stream (KSK stream returned untouched),
and a valid ZSK with an empty KSK stream. -/
theorem getKeys_failures_short_circuit_witness :
    (FileSession.GetKeys (mkState SignAlgorithm.RsaSha256 true
        { content := StreamContent.empty, pos := 0, failWrite := false, failSeek := false }
        { content := StreamContent.empty, pos := 0, failWrite := false, failSeek := false }
        [Option.none])
      = (Except.error Err.generationFailure,
         { session := (mkState SignAlgorithm.RsaSha256 true
             { content := StreamContent.empty, pos := 0, failWrite := false, failSeek := false }
             { content := StreamContent.empty, pos := 0, failWrite := false, failSeek := false }
             []).session,
           rand := [], log := [createKeysMsg] })) ∧
    (FileSession.GetKeys (mkState (SignAlgorithm.unknown 0) false
        { content := StreamContent.malformed, pos := 0, failWrite := false, failSeek := false }
        { content := StreamContent.empty, pos := 0, failWrite := false, failSeek := false } [])
      = (Except.error Err.decodeFailure, mkState (SignAlgorithm.unknown 0) false
          { content := StreamContent.malformed, pos := 1, failWrite := false, failSeek := false }
          { content := StreamContent.empty, pos := 0, failWrite := false, failSeek := false } [])) ∧
    (FileSession.GetKeys (mkState (SignAlgorithm.unknown 0) false
        { content := StreamContent.pem "PRIVATE KEY" [] (PKCS8Body.valid (PrivKey.rsa 1024 1)),
          pos := 0, failWrite := false, failSeek := false }
        { content := StreamContent.empty, pos := 0, failWrite := false, failSeek := false } [])).1
      = Except.error Err.decodeFailure :=
  ⟨getKeys_failures_short_circuit.1
      { content := StreamContent.empty, pos := 0, failWrite := false, failSeek := false }
      { content := StreamContent.empty, pos := 0, failWrite := false, failSeek := false } [],
   getKeys_failures_short_circuit.2.1 (SignAlgorithm.unknown 0) Err.decodeFailure
      StreamContent.malformed false false
      { content := StreamContent.empty, pos := 0, failWrite := false, failSeek := false } [] rfl,
   getKeys_failures_short_circuit.2.2 (SignAlgorithm.unknown 0) Err.decodeFailure
      (PrivKey.rsa 1024 1) "PRIVATE KEY" [] StreamContent.empty false false false false [] rfl⟩

/-- Claim C8: GetPublicKeyBytes selects the encoder by the sign algorithm and
fails before invoking either encoder on an unrecognized value (for every
SigKeys); the KSK signer is encoded first, and a KSK encoder failure is
returned for every ZSK signer, the ZSK encoder never being attempted; on
success the pair is the ZSK and KSK encodings. -/
theorem getPublicKeyBytes_dispatch_and_short_circuit :
    (∀ (ck : Bool) (n : Nat) (keys : SigKeys),
      FileSession.GetPublicKeyBytes
          { Config := { CreateKeys := ck }, SignAlgorithm := SignAlgorithm.unknown n } keys
        = Except.error Err.undefinedSignAlgorithm) ∧
    (∀ (ck : Bool) (c : Curve) (i : Nat) (z : fileRRSigner),
      FileSession.GetPublicKeyBytes
          { Config := { CreateKeys := ck }, SignAlgorithm := SignAlgorithm.RsaSha256 }
          { zskSigner := z, kskSigner := { Key := PrivKey.ec c i } }
        = Except.error Err.keyTypeMismatch) ∧
    (∀ (ck : Bool) (bits i : Nat) (z : fileRRSigner),
      FileSession.GetPublicKeyBytes
          { Config := { CreateKeys := ck }, SignAlgorithm := SignAlgorithm.EcdsaP256Sha256 }
          { zskSigner := z, kskSigner := { Key := PrivKey.rsa bits i } }
        = Except.error Err.keyTypeMismatch) ∧
    (∀ (ck : Bool) (zb zi kb ki : Nat),
      FileSession.GetPublicKeyBytes
          { Config := { CreateKeys := ck }, SignAlgorithm := SignAlgorithm.RsaSha256 }
          { zskSigner := { Key := PrivKey.rsa zb zi }, kskSigner := { Key := PrivKey.rsa kb ki } }
        = Except.ok (PubBytes.rsaPub zb zi, PubBytes.rsaPub kb ki)) :=
  ⟨fun _ _ _ => rfl, fun _ _ _ _ => rfl, fun _ _ _ _ => rfl, fun _ _ _ _ _ => rfl⟩

/-- Claim C9: with createKeys false, GetKeys writes nothing - both stream
contents, the randomness source and the log are unchanged - and its result is
exactly the decode of the pre-existing contents: the error of the first
failing decode, or signers wrapping precisely the two decoded keys. -/
theorem getKeys_no_create_preserves_streams_and_decodes
    (alg : SignAlgorithm) (zc kc : StreamContent) (zw zs kw ks : Bool) (r : RandSrc) :
    ((FileSession.GetKeys (mkState alg false
        { content := zc, pos := 0, failWrite := zw, failSeek := zs }
        { content := kc, pos := 0, failWrite := kw, failSeek := ks } r)).2.session.zskFile.content
      = zc ∧
     (FileSession.GetKeys (mkState alg false
        { content := zc, pos := 0, failWrite := zw, failSeek := zs }
        { content := kc, pos := 0, failWrite := kw, failSeek := ks } r)).2.session.kskFile.content
      = kc ∧
     (FileSession.GetKeys (mkState alg false
        { content := zc, pos := 0, failWrite := zw, failSeek := zs }
        { content := kc, pos := 0, failWrite := kw, failSeek := ks } r)).2.rand = r ∧
     (FileSession.GetKeys (mkState alg false
        { content := zc, pos := 0, failWrite := zw, failSeek := zs }
        { content := kc, pos := 0, failWrite := kw, failSeek := ks } r)).2.log = []) ∧
    (FileSession.GetKeys (mkState alg false
        { content := zc, pos := 0, failWrite := zw, failSeek := zs }
        { content := kc, pos := 0, failWrite := kw, failSeek := ks } r)).1
      = (match decodePriv zc with
         | Except.error e => Except.error e
         | Except.ok zk =>
           match decodePriv kc with
           | Except.error e => Except.error e
           | Except.ok kk =>
             Except.ok { zskSigner := { Key := zk }, kskSigner := { Key := kk } }) := by
  cases hz : decodePriv zc with
  | error e =>
    simp [FileSession.GetKeys, readerToPrivateKey, Stream.readAll, mkState, hz]
  | ok zk =>
    cases hk : decodePriv kc with
    | error e =>
      simp [FileSession.GetKeys, readerToPrivateKey, Stream.readAll, mkState, hz, hk]
    | ok kk =>
      simp [FileSession.GetKeys, readerToPrivateKey, Stream.readAll, mkState, hz, hk]

end DnsTools
